import Mathlib

/-!
# Verification of the critical-CSS extractor against its specification

Shallow embedding of the extraction pipeline of the `crit-css-extractor`
repository: the DOM above-fold analyzer (`src/lib/dom-utils.ts`), the paint
stabilization detector (`lcp-observer.ts`), the rendering session manager
(`playwright-renderer.ts`), the error taxonomy (`errors.ts`), and — where the
implementation file is absent from the source tree and only its tests or
callers are — definitions modelled from the specification, marked as such in
their doc comments.
-/

namespace CritCSS

/-! ## JavaScript string primitives

The source is TypeScript; its string operations are modelled here by
structurally recursive functions over the character list of a `String`, so
that every definition evaluates by kernel reduction on concrete inputs. -/

/-- The whitespace characters recognised by JS `String.prototype.trim`
(the ASCII ones, which are the only ones the repository's inputs use). -/
def isJsWhitespace (c : Char) : Bool :=
  c == ' ' || c == '\t' || c == '\n' || c == '\r' || c == '\x0b' || c == '\x0c'

/-- JS `String.prototype.trim`: strip leading and trailing whitespace. -/
def jsTrim (s : String) : String :=
  ⟨(((s.data.dropWhile isJsWhitespace).reverse.dropWhile isJsWhitespace).reverse)⟩

/-- JS `String.prototype.toLowerCase` (ASCII case mapping, which covers every
tag and class name the analyzer compares). -/
def jsToLowerCase (s : String) : String :=
  ⟨s.data.map Char.toLower⟩

/-- Helper for `jsSplit`: split a character list at every occurrence of the
separator, keeping empty segments, as JS `split` does. -/
def splitCharsAux (sep : Char) : List Char → List Char → List (List Char)
  | [], acc => [acc.reverse]
  | c :: cs, acc =>
      if c == sep then acc.reverse :: splitCharsAux sep cs []
      else splitCharsAux sep cs (c :: acc)

/-- JS `String.prototype.split` with a one-character separator. -/
def jsSplit (s : String) (sep : Char) : List String :=
  (splitCharsAux sep s.data []).map (fun cs => ⟨cs⟩)

/-- JS `String.prototype.includes` with a one-character argument. -/
def jsIncludesChar (s : String) (c : Char) : Bool :=
  s.data.contains c

/-- Does `pat` occur at the start of `l`? -/
def charsPrefixOf : List Char → List Char → Bool
  | [], _ => true
  | _ :: _, [] => false
  | a :: as, b :: bs => a == b && charsPrefixOf as bs

/-- Does `pat` occur anywhere inside `l`? -/
def charsInfixOf (pat : List Char) : List Char → Bool
  | [] => charsPrefixOf pat []
  | l@(_ :: rest) => charsPrefixOf pat l || charsInfixOf pat rest

/-- JS `String.prototype.includes` with a string argument. -/
def jsIncludes (s pat : String) : Bool :=
  charsInfixOf pat.data s.data

/-- JS `Array.prototype.join` on strings. -/
def jsJoin (sep : String) : List String → String
  | [] => ""
  | [x] => x
  | x :: y :: rest => x ++ sep ++ jsJoin sep (y :: rest)

/-! ## DOM model (dom-utils.ts) -/

/-- A bounding client rectangle, as returned by `getBoundingClientRect()`.
Coordinates are modelled as integers (pixel offsets relative to the
viewport). -/
structure Rect where
  top : Int
  bottom : Int
  width : Int
  height : Int
  deriving DecidableEq, Repr

/-- The computed-style subset read by `dom-utils.ts`: `display`, `visibility`
and `opacity` are compared as strings; `fontSizePx` models
`parseFloat(computedStyle.fontSize)`. -/
structure ComputedStyle where
  display : String
  visibility : String
  opacity : String
  fontSizePx : Int
  fontFamily : String
  deriving DecidableEq, Repr

/-- A live browser-side element: the fields of `Element` that the analyzer
reads (`tagName`, `id`, `className`, `textContent`, its bounding rectangle and
its computed style). -/
structure DomElement where
  tagName : String
  id : String
  className : String
  textContent : String
  rect : Rect
  style : ComputedStyle
  deriving DecidableEq, Repr

/-- `ElementInfo` from `types.ts`: the serializable record built by
`getElementInfo` inside `getAboveFoldElements`. Note that it carries no
live element handle and no computed style. -/
structure ElementInfo where
  tagName : String
  className : String
  id : String
  selector : String
  isAboveFold : Bool
  deriving DecidableEq, Repr

/-- `isAboveFold` from `dom-utils.ts` (lines 25-36): the element is visible
when `rect.bottom > -bufferZone && rect.top < viewportHeight + bufferZone`,
and hidden when its width or height is zero. -/
def isAboveFold (viewportHeight buffer : Int) (element : DomElement) : Bool :=
  let rect := element.rect
  let isVisible := decide (rect.bottom > -buffer) && decide (rect.top < viewportHeight + buffer)
  let isHidden := rect.width == 0 || rect.height == 0
  isVisible && !isHidden

/-- `generateSelector` from `dom-utils.ts` (lines 38-56): `#id` when an id is
present, otherwise `tag.class1.class2...` over the non-empty classes that
contain no `:`, otherwise the bare lowercase tag name. -/
def generateSelector (element : DomElement) : String :=
  if element.id ≠ "" then
    "#" ++ element.id
  else
    let classes := (jsSplit element.className ' ').filter
      (fun cls => jsTrim cls != "" && !(jsIncludesChar cls ':'))
    if element.className ≠ "" ∧ classes ≠ [] then
      jsToLowerCase element.tagName ++ "." ++ jsJoin "." classes
    else
      jsToLowerCase element.tagName

/-- `getElementInfo` from `dom-utils.ts` (lines 58-67): the serialized record
for one qualifying element.  No `element` property is stored. -/
def getElementInfo (element : DomElement) : ElementInfo :=
  { tagName := jsToLowerCase element.tagName
    className := element.className
    id := element.id
    selector := generateSelector element
    isAboveFold := true }

/-- The fixed non-visual tag set skipped by `getAboveFoldElements`
(`dom-utils.ts` lines 75-87). -/
def nonVisualTags : List String :=
  ["script", "style", "meta", "link", "title", "head", "noscript"]

/-- `getAboveFoldElements` from `dom-utils.ts` (lines 18-98): walk all
elements of the document in order, skip the non-visual tags, keep those that
pass `isAboveFold`, and serialize each with `getElementInfo`. -/
def getAboveFoldElements (document : List DomElement) (viewportHeight buffer : Int) :
    List ElementInfo :=
  (document.filter (fun element =>
    !(nonVisualTags.contains (jsToLowerCase element.tagName)) &&
      isAboveFold viewportHeight buffer element)).map getElementInfo

/-- The above-fold criterion exactly as the specification words it, for
refinement comparison with `isAboveFold`: the bounding rectangle (as the
closed vertical interval from `top` to `bottom`) intersects the closed span
from `-buffer` to `viewportHeight + buffer`, and width and height are both
non-zero. -/
def specAboveFold (viewportHeight buffer : Int) (element : DomElement) : Prop :=
  (∃ y : Int, element.rect.top ≤ y ∧ y ≤ element.rect.bottom ∧
      -buffer ≤ y ∧ y ≤ viewportHeight + buffer) ∧
    element.rect.width ≠ 0 ∧ element.rect.height ≠ 0

/-- A plain visible computed style for concrete test documents. -/
def plainStyle : ComputedStyle :=
  { display := "block", visibility := "visible", opacity := "1",
    fontSizePx := 16, fontFamily := "serif" }

/-- An element whose rectangle touches the buffered span exactly at its lower
endpoint: `bottom = -buffer` for `buffer = 100`. -/
def touchElement : DomElement :=
  { tagName := "div", id := "", className := "", textContent := "x",
    rect := { top := -150, bottom := -100, width := 10, height := 50 },
    style := plainStyle }

/-- An element with `rect.top = viewportHeight + 50` for
`viewportHeight = 640`, as in the claim's concrete buffer cases. -/
def fiftyPastFoldElement : DomElement :=
  { tagName := "div", id := "", className := "", textContent := "x",
    rect := { top := 690, bottom := 730, width := 10, height := 40 },
    style := plainStyle }

/-- C1 (counterexample): the claim's closed-span reading fails at the
boundary.  `touchElement` has `rect.bottom = -100`: for `buffer = 100` its
rectangle intersects the closed span from `-100` to `740` (at the single
point `-100`), it has non-zero width and height, and its tag is not excluded
— so the claim marks it above-fold — yet `getAboveFoldElements` rejects it,
because the code requires the strict inequality `rect.bottom > -bufferZone`. -/
theorem c1_counterexample :
    specAboveFold 640 100 touchElement ∧
    nonVisualTags.contains (jsToLowerCase touchElement.tagName) = false ∧
    getAboveFoldElements [touchElement] 640 100 = [] := by
  refine ⟨⟨⟨-100, by decide, by decide, by decide, by decide⟩, by decide, by decide⟩,
    by decide, by decide⟩

/-- C1 (amended): `getAboveFoldElements` marks an element above-fold iff its
tag is outside the non-visual set, `rect.bottom > -buffer` and
`rect.top < viewportHeight + buffer` hold with strict inequality (the
rectangle must reach into the open interior of the buffered span; touching an
endpoint does not count), and its width and height are both non-zero; in
particular an element with `rect.top = viewportHeight + 50` is included when
`buffer = 100` and excluded when `buffer = 30`. -/
theorem c1_aboveFold_characterization :
    (∀ (document : List DomElement) (viewportHeight buffer : Int) (info : ElementInfo),
      info ∈ getAboveFoldElements document viewportHeight buffer ↔
        ∃ element, element ∈ document ∧
          nonVisualTags.contains (jsToLowerCase element.tagName) = false ∧
          -buffer < element.rect.bottom ∧
          element.rect.top < viewportHeight + buffer ∧
          element.rect.width ≠ 0 ∧ element.rect.height ≠ 0 ∧
          info = getElementInfo element) ∧
    getAboveFoldElements [fiftyPastFoldElement] 640 100 =
      [getElementInfo fiftyPastFoldElement] ∧
    getAboveFoldElements [fiftyPastFoldElement] 640 30 = [] := by
  refine ⟨?_, by decide, by decide⟩
  intro document viewportHeight buffer info
  simp only [getAboveFoldElements, isAboveFold, List.mem_map, List.mem_filter,
    Bool.and_eq_true, Bool.not_eq_true', decide_eq_true_eq, Bool.or_eq_false_iff,
    beq_eq_false_iff_ne, ne_eq]
  constructor
  · rintro ⟨element, he, rfl⟩
    exact ⟨element, he.1, he.2.1, he.2.2.1.1, he.2.2.1.2, he.2.2.2.1, he.2.2.2.2, rfl⟩
  · rintro ⟨element, hmem, hskip, hbot, htop, hw, hh, rfl⟩
    exact ⟨element, ⟨hmem, hskip, ⟨hbot, htop⟩, hw, hh⟩, rfl⟩

/-! ## Visible-text filtering (dom-utils.ts, getVisibleTextElements)

`getVisibleTextElements` first calls `getAboveFoldElements`, whose results are
the serialized `ElementInfo` records above, and then passes that list back
into the page and filters it with a callback that reads `elementInfo.element`
and `window.getComputedStyle(element)`.  A JS property access on an object
that lacks the property yields `undefined`; that possibility is modelled with
`Option`, and a thrown `TypeError` (which makes `page.evaluate` reject) with
`Except`. -/

/-- A JavaScript runtime error thrown inside `page.evaluate`. -/
inductive JsError
  | typeError (message : String)
  deriving DecidableEq, Repr

/-- The argument objects the filter callback of `getVisibleTextElements`
receives: the serialized `ElementInfo` fields plus the `element` and
`computedStyle` properties it tries to read, which are `none` exactly when
the property is absent (reads as `undefined`). -/
structure ElementInfoArg where
  info : ElementInfo
  element : Option DomElement
  computedStyle : Option ComputedStyle
  deriving DecidableEq, Repr

/-- Passing an `ElementInfo` into `page.evaluate`: only the serialized fields
cross the boundary, so `element` and `computedStyle` come out absent
(`getElementInfo` never stored them). -/
def serializeElementInfo (info : ElementInfo) : ElementInfoArg :=
  { info := info, element := none, computedStyle := none }

/-- `Array.prototype.filter` with a callback that may throw: elements are
visited in order and the first thrown error aborts the whole evaluation. -/
def jsFilter {α : Type} (p : α → Except JsError Bool) : List α → Except JsError (List α)
  | [] => .ok []
  | x :: xs => do
      let keep ← p x
      let rest ← jsFilter p xs
      pure (if keep then x :: rest else rest)

/-- The filter callback of `getVisibleTextElements` (`dom-utils.ts` lines
107-130): it reads `elementInfo.element`; since the serialized records carry
no such property the access yields `undefined`, and
`element.textContent?.trim()` then throws a `TypeError`.  The remaining
checks — non-empty trimmed text, not display-none / visibility-hidden /
opacity-0, font-size > 0 — are embedded as written. -/
def visibleTextCheck (arg : ElementInfoArg) : Except JsError Bool :=
  match arg.element with
  | none =>
      .error (.typeError "Cannot read properties of undefined (reading textContent)")
  | some element =>
      let textContent := jsTrim element.textContent
      if textContent = "" then .ok false
      else if element.style.display = "none" ∨ element.style.visibility = "hidden" ∨
          element.style.opacity = "0" then .ok false
      else if element.style.fontSizePx ≤ 0 then .ok false
      else .ok true

/-- `getVisibleTextElements` from `dom-utils.ts` (lines 103-132). -/
def getVisibleTextElements (document : List DomElement) (viewportHeight buffer : Int) :
    Except JsError (List ElementInfoArg) :=
  jsFilter visibleTextCheck
    ((getAboveFoldElements document viewportHeight buffer).map serializeElementInfo)

/-- An ordinary above-fold element with visible, non-empty text: the claim
says `getVisibleTextElements` must return it. -/
def heroTextElement : DomElement :=
  { tagName := "div", id := "hero", className := "", textContent := "Hello",
    rect := { top := 0, bottom := 40, width := 100, height := 40 },
    style := plainStyle }

/-- C8 (code bug): on a page with one above-fold element carrying visible
non-empty text, `getVisibleTextElements` does not return the subset the claim
describes — it throws a `TypeError`, because the serialized `ElementInfo`
records have no `element` property (see `getElementInfo`), so the callback's
`elementInfo.element.textContent` is a property access on `undefined`. -/
theorem c8_visibleText_throws :
    getAboveFoldElements [heroTextElement] 640 100 = [getElementInfo heroTextElement] ∧
    visibleTextCheck (serializeElementInfo (getElementInfo heroTextElement)) =
      .error (.typeError "Cannot read properties of undefined (reading textContent)") ∧
    getVisibleTextElements [heroTextElement] 640 100 =
      .error (.typeError "Cannot read properties of undefined (reading textContent)") := by
  exact ⟨by decide, by rfl, by rfl⟩

/-! ## CSS rule model and relevance filtering -/

/-- `Declaration` from `types.ts`. -/
structure Declaration where
  property : String
  value : String
  important : Bool
  deriving DecidableEq, Repr

/-- `CSSRule` from `types.ts`: selector (the literal at-rule token for
`@font-face` rules), ordered declarations, optional normalized media query. -/
structure CSSRule where
  selector : String
  declarations : List Declaration
  mediaQuery : Option String
  deriving DecidableEq, Repr

/-- Modelled from the spec: the Rule Engine implementation (`css-parser.ts`,
class `CSSParser`, method `filterCSSRules`) is not under `src/` — only its
unit tests are.  Spec §4.4 step 3: "a rule is retained iff its selector
matches at least one entry in the above-fold selector set (string membership
test against the selectors produced by §4.3), OR the rule is `@font-face`
(always retained, unconditionally)"; the unit tests drive
`filterCSSRules(rules, aboveFoldSelectors)` with a selector set and check
exactly this membership behaviour, `@font-face` rules being recognised by
their selector literal. -/
def filterCSSRules (rules : List CSSRule) (aboveFoldSelectors : List String) :
    List CSSRule :=
  rules.filter (fun rule =>
    rule.selector == "@font-face" || aboveFoldSelectors.contains rule.selector)

/-- C5: a rule is retained by `filterCSSRules` iff it occurs in the input and
its selector is in the above-fold set or it is an `@font-face` rule; hence
`@font-face` rules are never dropped and non-font rules with unlisted
selectors are dropped.  The filter also preserves the input order. -/
theorem c5_filter_retention :
    (∀ (rules : List CSSRule) (selectors : List String) (rule : CSSRule),
      rule ∈ filterCSSRules rules selectors ↔
        rule ∈ rules ∧ (rule.selector ∈ selectors ∨ rule.selector = "@font-face")) ∧
    (∀ (rules : List CSSRule) (selectors : List String),
      (filterCSSRules rules selectors).Sublist rules) := by
  constructor
  · intro rules selectors rule
    simp only [filterCSSRules, List.mem_filter, Bool.or_eq_true, beq_iff_eq,
      List.elem_iff]
    tauto
  · intro rules selectors
    exact List.filter_sublist rules

/-- C5 witness: an `@font-face` rule with an unlisted selector is kept, and a
non-font rule with an unlisted selector is dropped. -/
theorem c5_filter_retention_witness :
    (⟨"@font-face", [], none⟩ : CSSRule) ∈
      filterCSSRules [⟨"@font-face", [], none⟩, ⟨".footer", [], none⟩] [".hero"] ∧
    (⟨".footer", [], none⟩ : CSSRule) ∉
      filterCSSRules [⟨"@font-face", [], none⟩, ⟨".footer", [], none⟩] [".hero"] := by
  constructor
  · exact (c5_filter_retention.1 _ _ _).mpr ⟨by decide, Or.inr rfl⟩
  · intro hmem
    have h := (c5_filter_retention.1 _ _ _).mp hmem
    revert h
    decide

/-! ## Extraction results and validation -/

/-- `ViewportConfig` from `types.ts`; the device scale factor is a rational
(the mobile preset uses 2.625). -/
structure ViewportConfig where
  width : Int
  height : Int
  deviceScaleFactor : Rat
  isMobile : Bool
  hasTouch : Option Bool
  deriving DecidableEq, Repr

/-- Modelled from the spec: `constants.ts` (`VIEWPORTS.mobile`) is not under
`src/`.  Spec §6: "mobile: 360×640, device-scale 2.625, isMobile true". -/
def mobileViewport : ViewportConfig :=
  { width := 360, height := 640, deviceScaleFactor := 21 / 8, isMobile := true,
    hasTouch := some true }

/-- `ExtractionResult` from `types.ts`. -/
structure ExtractionResult where
  criticalCSS : String
  mobileCSS : Option String
  desktopCSS : Option String
  size : Nat
  extractionTime : Nat
  viewport : ViewportConfig
  url : String
  deriving DecidableEq, Repr

/-- The `ValidationReport` shape returned by `validateExtraction`
(`isValid`, fatal `errors`, non-fatal `warnings`). -/
structure ValidationReport where
  isValid : Bool
  errors : List String
  warnings : List String
  deriving DecidableEq, Repr

/-- Modelled from the spec: `extractor.ts`
(`CriticalCSSExtractor.validateExtraction`) is not under `src/` — only its
integration tests are.  Spec §4.5: "fatal error if the critical CSS is empty;
warning if output size exceeds a recommended ceiling (≈14KB); returns a
ValidationReport, never throws".  The tests pin the error text "Extracted
critical CSS is empty", that the warning text contains "exceeds recommended
limit", and that a 20000-byte result is valid with a warning.  The ceiling is
taken as 14336 bytes (14KB). -/
def validateExtraction (result : ExtractionResult) : ValidationReport :=
  let errors := if result.criticalCSS = "" then ["Extracted critical CSS is empty"] else []
  let warnings :=
    if 14336 < result.size then
      ["CSS size exceeds recommended limit of 14KB"]
    else []
  { isValid := errors.isEmpty, errors := errors, warnings := warnings }

/-- C9: `validateExtraction` is a total function into `ValidationReport`
(it never throws); empty critical CSS yields `isValid = false` with the
explicit "empty" error, and a result at or beyond 20000 bytes with non-empty
CSS yields `isValid = true` with a size warning rather than an error. -/
theorem c9_validateExtraction :
    ∀ result : ExtractionResult,
      (result.criticalCSS = "" →
        (validateExtraction result).isValid = false ∧
        "Extracted critical CSS is empty" ∈ (validateExtraction result).errors) ∧
      (result.criticalCSS ≠ "" → 20000 ≤ result.size →
        (validateExtraction result).isValid = true ∧
        (validateExtraction result).warnings =
          ["CSS size exceeds recommended limit of 14KB"] ∧
        (validateExtraction result).errors = []) := by
  intro result
  constructor
  · intro hempty
    simp [validateExtraction, hempty]
  · intro hnonempty hsize
    have hgt : 14336 < result.size := lt_of_lt_of_le (by norm_num) hsize
    simp [validateExtraction, hnonempty, hgt]

/-- C9 witness: an empty result is invalid with the "empty" error; a
20000-byte result with non-empty CSS is valid with exactly the size
warning. -/
theorem c9_validateExtraction_witness :
    (validateExtraction
        { criticalCSS := "", mobileCSS := none, desktopCSS := none, size := 0,
          extractionTime := 1000, viewport := mobileViewport,
          url := "https://example.com" }).isValid = false ∧
    "Extracted critical CSS is empty" ∈
      (validateExtraction
        { criticalCSS := "", mobileCSS := none, desktopCSS := none, size := 0,
          extractionTime := 1000, viewport := mobileViewport,
          url := "https://example.com" }).errors ∧
    (validateExtraction
        { criticalCSS := ".test\x7bcolor:red\x7d", mobileCSS := none,
          desktopCSS := none, size := 20000, extractionTime := 1000,
          viewport := mobileViewport, url := "https://example.com" }).isValid = true ∧
    (validateExtraction
        { criticalCSS := ".test\x7bcolor:red\x7d", mobileCSS := none,
          desktopCSS := none, size := 20000, extractionTime := 1000,
          viewport := mobileViewport, url := "https://example.com" }).warnings =
      ["CSS size exceeds recommended limit of 14KB"] := by
  refine ⟨?_, ?_, ?_, ?_⟩
  · exact ((c9_validateExtraction _).1 rfl).1
  · exact ((c9_validateExtraction _).1 rfl).2
  · exact (((c9_validateExtraction _).2 (by decide) (by norm_num)).1)
  · exact (((c9_validateExtraction _).2 (by decide) (by norm_num)).2.1)

/-! ## Raw CSS collection (playwright-renderer.ts, getAllCSS)

The page's style sources in document order.  An inline `<style>` element
contributes both its raw `textContent` and a CSSOM sheet (CSSOM:
`document.styleSheets` lists the sheets of `<style>` elements as well as
those of `<link rel="stylesheet">` elements); an external stylesheet
contributes only a CSSOM sheet, whose `cssRules` are inaccessible
(`none`) for cross-origin sheets — reading them throws, which the code's
`tryGetSheetText` catches, returning the empty string. -/

/-- One style source of the page: an inline `<style>` element (raw text plus
its CSSOM rule texts) or an external stylesheet (rule texts when
accessible). -/
inductive StyleSource
  | inlineStyle (text : String) (cssRules : List String)
  | external (cssRules : Option (List String))
  deriving DecidableEq, Repr

/-- `document.querySelectorAll('style')`: the inline texts, in page order. -/
def inlineTexts (document : List StyleSource) : List String :=
  document.filterMap (fun source =>
    match source with
    | .inlineStyle text _ => some text
    | .external _ => none)

/-- `document.styleSheets`: one CSSOM sheet per style source, in page order;
`none` models a sheet whose `cssRules` access throws (cross-origin). -/
def styleSheetRules : StyleSource → Option (List String)
  | .inlineStyle _ cssRules => some cssRules
  | .external cssRules => cssRules

/-- `tryGetSheetText` from `playwright-renderer.ts` (lines 254-270):
concatenate every rule's `cssText` followed by a newline; on an access error
(CORS) return the empty string. -/
def tryGetSheetText (cssRules : Option (List String)) : String :=
  match cssRules with
  | some rules => rules.foldl (fun cssText rule => cssText ++ rule ++ "\n") ""
  | none => ""

/-- `getAllCSS` from `playwright-renderer.ts` (lines 233-282): one `allCSS`
accumulator; first every inline `<style>` text with non-blank content is
appended, then every sheet of `document.styleSheets` whose extracted text is
non-blank. -/
def getAllCSS (document : List StyleSource) : String :=
  let allCSS := (inlineTexts document).foldl
    (fun allCSS content => if jsTrim content ≠ "" then allCSS ++ content else allCSS) ""
  (document.map styleSheetRules).foldl
    (fun allCSS sheetRules =>
      let sheetText := tryGetSheetText sheetRules
      if jsTrim sheetText ≠ "" then allCSS ++ sheetText else allCSS)
    allCSS

/-- A page with a single inline `<style>` block and no external stylesheet;
the block's CSSOM sheet serializes its one rule as usual. -/
def singleInlinePage : List StyleSource :=
  [.inlineStyle ".a\x7bcolor:red\x7d" [".a \x7b color: red; \x7d"]]

/-- C6 (code bug): on a page whose only style source is one inline `<style>`
block, `getAllCSS` emits that block's CSS twice — once as its raw text and
once again through `document.styleSheets`, which also lists the sheet created
by the same `<style>` element — while the claim says each inline block
contributes exactly once.  (An inaccessible external sheet, by contrast, is
skipped as the claim states.) -/
theorem c6_getAllCSS_double_counts_inline :
    getAllCSS singleInlinePage =
      ".a\x7bcolor:red\x7d" ++ ".a \x7b color: red; \x7d" ++ "\n" ∧
    getAllCSS [.external none] = "" := by
  exact ⟨by rfl, by rfl⟩

/-! ## Error taxonomy (errors.ts) and loadPage failure classification -/

/-- The raw value thrown by the browser layer during `loadPage`: whether it
is an `Error` instance, and its message. -/
structure BrowserFailure where
  isError : Bool
  message : String
  deriving DecidableEq, Repr

/-- The base extraction-failure kind `CriticalExtractionError` from
`errors.ts`, with one variant per subclass raised by `loadPage`
(`TimeoutError`, `NetworkError`, `RenderingError`); every variant carries the
optional underlying cause, as the base class's constructor does. -/
inductive CritError
  | timeoutError (message : String) (cause : Option BrowserFailure)
  | networkError (message : String) (cause : Option BrowserFailure)
  | renderingError (message : String) (cause : Option BrowserFailure)
  deriving DecidableEq, Repr

/-- The `name` property each subclass sets in its constructor. -/
def CritError.name : CritError → String
  | .timeoutError _ _ => "TimeoutError"
  | .networkError _ _ => "NetworkError"
  | .renderingError _ _ => "RenderingError"

/-- The `cause` property of the base class. -/
def CritError.cause : CritError → Option BrowserFailure
  | .timeoutError _ cause => cause
  | .networkError _ cause => cause
  | .renderingError _ cause => cause

/-- The three error kinds of the classification. -/
inductive ErrorKind
  | timeout
  | network
  | rendering
  deriving DecidableEq, Repr

/-- Which kind a classified error is. -/
def CritError.kind : CritError → ErrorKind
  | .timeoutError _ _ => .timeout
  | .networkError _ _ => .network
  | .renderingError _ _ => .rendering

/-- The `catch` block of `loadPage` from `playwright-renderer.ts` (lines
167-182): an `Error` whose message includes `"timeout"` becomes
`TimeoutError`, else an `Error` whose message includes `"net::ERR_"` becomes
`NetworkError`, and anything else becomes `RenderingError`; each is built
with the original failure as its cause. -/
def classifyLoadPageError (url : String) (failure : BrowserFailure) : CritError :=
  if failure.isError && jsIncludes failure.message "timeout" then
    .timeoutError ("Page load timeout for " ++ url) (some failure)
  else if failure.isError && jsIncludes failure.message "net::ERR_" then
    .networkError ("Network error loading " ++ url ++ ": " ++ failure.message) (some failure)
  else
    .renderingError ("Failed to load page " ++ url) (some failure)

/-- C7: every failure thrown by `loadPage` is classified into exactly one of
the three kinds — timeout when the failure is an `Error` marked as a timeout,
network when it is a connection-level `net::ERR_` failure (and not a
timeout), rendering otherwise — and the result is always a value of the
single base kind `CritError` carrying the underlying cause. -/
theorem c7_error_classification :
    ∀ (url : String) (failure : BrowserFailure),
      (classifyLoadPageError url failure).cause = some failure ∧
      (classifyLoadPageError url failure).name ∈
        ["TimeoutError", "NetworkError", "RenderingError"] ∧
      ((classifyLoadPageError url failure).kind = .timeout ↔
        failure.isError = true ∧ jsIncludes failure.message "timeout" = true) ∧
      ((classifyLoadPageError url failure).kind = .network ↔
        failure.isError = true ∧ jsIncludes failure.message "timeout" = false ∧
          jsIncludes failure.message "net::ERR_" = true) ∧
      ((classifyLoadPageError url failure).kind = .rendering ↔
        (failure.isError = false ∨
          (jsIncludes failure.message "timeout" = false ∧
            jsIncludes failure.message "net::ERR_" = false))) := by
  intro url failure
  cases hE : failure.isError <;>
    cases hT : jsIncludes failure.message "timeout" <;>
      cases hN : jsIncludes failure.message "net::ERR_" <;>
        simp [classifyLoadPageError, hE, hT, hN, CritError.kind, CritError.cause,
          CritError.name]

/-! ## Paint stabilization detector (lcp-observer.ts)

The page-side script injected by `waitForLCPStabilization` (lines 52-108) is
a state machine over the events that can occur on the page: a new
largest-contentful-paint signal, the stabilization timer firing (delay with
no further signal — `clearTimeout` on each signal means a cancelled timer
never fires, so a `stabilizeFire` event stands for the currently pending
timer elapsing), and the 3-second fallback timer firing. -/

/-- `LCPEntry` from `lcp-observer.ts`. -/
structure LCPEntry where
  element : String
  renderTime : Nat
  loadTime : Nat
  size : Nat
  url : Option String
  deriving DecidableEq, Repr

/-- An event observable by the injected page script. -/
inductive LCPEvent
  | signal (entry : LCPEntry)
  | stabilizeFire
  | fallbackFire
  deriving DecidableEq, Repr

/-- The page-side state: `stabilized` is `window.__lcpStabilized`, `buf` the
local `lcpEntries` array, `published` is `window.__lcpEntries`, and
`timerPending` records whether a stabilization timer is currently set. -/
structure LCPPageState where
  stabilized : Bool
  buf : List LCPEntry
  published : List LCPEntry
  timerPending : Bool
  deriving DecidableEq, Repr

/-- The state right after the observer script is injected (lines 58-63). -/
def initialLCPPageState : LCPPageState :=
  { stabilized := false, buf := [], published := [], timerPending := false }

/-- One step of the page-side machine (lines 65-107): a signal is ignored
once stabilized, otherwise appended to `lcpEntries` with the stabilization
timer reset; the pending stabilization timer firing publishes the collected
entries and sets the stabilized flag; the fallback timer fires only when not
stabilized and no entry has arrived, publishing the (empty) list. -/
def lcpStep (s : LCPPageState) : LCPEvent → LCPPageState
  | .signal entry =>
      if s.stabilized then s
      else { s with buf := s.buf ++ [entry], timerPending := true }
  | .stabilizeFire =>
      if s.timerPending then
        { s with stabilized := true, published := s.buf, timerPending := false }
      else s
  | .fallbackFire =>
      if !s.stabilized && s.buf.isEmpty then
        { s with stabilized := true, published := s.buf }
      else s

/-- Run the page-side machine over an event trace. -/
def lcpRun (events : List LCPEvent) : LCPPageState :=
  events.foldl lcpStep initialLCPPageState

/-- Folding a run of signals from an unstabilized state: all entries are
appended in order, and the stabilization timer ends up pending as soon as at
least one signal arrived. -/
theorem lcpFoldSignals (entries : List LCPEntry) :
    ∀ s : LCPPageState, s.stabilized = false →
      List.foldl lcpStep s (entries.map LCPEvent.signal) =
        { s with buf := s.buf ++ entries,
                 timerPending := if entries.isEmpty then s.timerPending else true } := by
  induction entries with
  | nil => intro s hs; simp
  | cons entry rest ih =>
      intro s hs
      have hstep : lcpStep s (.signal entry) =
          { s with buf := s.buf ++ [entry], timerPending := true } := by
        simp [lcpStep, hs]
      simp only [List.map_cons, List.foldl_cons, hstep]
      rw [ih { s with buf := s.buf ++ [entry], timerPending := true } hs]
      simp [List.append_assoc]

/-! The environment of the Node-side driver of `waitForLCPStabilization`
(lines 35-143).  Each interaction with the page may fail (the page can close
or navigate), which `Except` models; the hard overall timeout races the
polling loop, so the loop gets a finite poll budget — timeout = budget
exhausted — and the timeout handler resolves with whatever entries
`getCurrentLCP` reports (or `[]` when even that fails). -/

/-- Behaviour of the page as the driver sees it: whether the observer
injection succeeds, what each successive 100ms poll of
`(__lcpStabilized, __lcpEntries)` returns, how many polls fit before the
hard timeout, and what `getCurrentLCP` returns. -/
structure LCPEnv where
  inject : Except Unit Unit
  poll : Nat → Except Unit (Bool × List LCPEntry)
  pollBudget : Nat
  current : Except Unit (List LCPEntry)

/-- `getCurrentLCP().then(resolve).catch(() => resolve([]))`: the fallback
resolution used by the timeout handler and the catch block. -/
def resolveWithCurrent (current : Except Unit (List LCPEntry)) : List LCPEntry :=
  match current with
  | .ok entries => entries
  | .error _ => []

/-- The recursive `checkStabilization` poll loop (lines 111-127), restated
with the poll budget as fuel: `none` means the hard timeout elapsed first. -/
def pollLoop (env : LCPEnv) : Nat → Nat → Option (Except Unit (List LCPEntry))
  | 0, _ => none
  | budget + 1, i =>
      match env.poll i with
      | .error e => some (.error e)
      | .ok (true, entries) => some (.ok entries)
      | .ok (false, _) => pollLoop env budget (i + 1)

/-- `waitForLCPStabilization` (lines 35-143): inject the observer script; on
injection failure resolve via `getCurrentLCP` (catch block, lines 132-141);
otherwise poll until stabilized, resolving with the published entries; a poll
error goes through the same catch block; budget exhaustion is the hard
timeout, which resolves with the currently known entries (lines 37-47).
Every branch resolves — `reject` is never called. -/
def waitForLCPStabilization (env : LCPEnv) : Except Unit (List LCPEntry) :=
  match env.inject with
  | .error _ => .ok (resolveWithCurrent env.current)
  | .ok _ =>
      match pollLoop env env.pollBudget 0 with
      | some (.ok entries) => .ok entries
      | some (.error _) => .ok (resolveWithCurrent env.current)
      | none => .ok (resolveWithCurrent env.current)

/-- C4: in the paint-stabilization machine, (i) while not stabilized every
new signal is appended to the entry list and resets the stabilization timer;
(ii) once stabilized, further signals are ignored; (iii) the terminal
Stabilized state absorbs every event; (iv) the transition to Stabilized after
a run of signals followed by a quiet stabilization delay publishes exactly
the collected entries, so the resolved list ends with the **last** reported
candidate. -/
theorem c4_stabilization_machine :
    (∀ (s : LCPPageState) (entry : LCPEntry), s.stabilized = false →
      lcpStep s (.signal entry) =
        { s with buf := s.buf ++ [entry], timerPending := true }) ∧
    (∀ (s : LCPPageState) (entry : LCPEntry), s.stabilized = true →
      lcpStep s (.signal entry) = s) ∧
    (∀ (s : LCPPageState) (event : LCPEvent),
      s.stabilized = true → s.timerPending = false → lcpStep s event = s) ∧
    (∀ entries : List LCPEntry, entries ≠ [] →
      lcpRun (entries.map LCPEvent.signal ++ [.stabilizeFire]) =
        { stabilized := true, buf := entries, published := entries,
          timerPending := false } ∧
      (lcpRun (entries.map LCPEvent.signal ++ [.stabilizeFire])).published.getLast? =
        entries.getLast?) := by
  have hterm : ∀ (s : LCPPageState) (event : LCPEvent),
      s.stabilized = true → s.timerPending = false → lcpStep s event = s := by
    intro s event hstab hpend
    cases event with
    | signal entry => simp [lcpStep, hstab]
    | stabilizeFire => simp [lcpStep, hpend]
    | fallbackFire => simp [lcpStep, hstab]
  refine ⟨?_, ?_, hterm, ?_⟩
  · intro s entry hs
    simp [lcpStep, hs]
  · intro s entry hs
    simp [lcpStep, hs]
  · intro entries hne
    have hrun : lcpRun (entries.map LCPEvent.signal ++ [.stabilizeFire]) =
        { stabilized := true, buf := entries, published := entries,
          timerPending := false } := by
      have hempty : entries.isEmpty = false := by
        cases entries with
        | nil => exact absurd rfl hne
        | cons a as => rfl
      unfold lcpRun
      rw [List.foldl_append, lcpFoldSignals entries initialLCPPageState rfl]
      simp [initialLCPPageState, hempty, lcpStep]
    exact ⟨hrun, by rw [hrun]⟩

/-- A concrete paint signal for witnesses. -/
def sampleEntry : LCPEntry :=
  { element := "img", renderTime := 1200, loadTime := 1100, size := 50000,
    url := some "https://example.com/hero.jpg" }

/-- A second, later concrete paint signal. -/
def sampleEntryLater : LCPEntry :=
  { element := "h1", renderTime := 1700, loadTime := 0, size := 12000, url := none }

/-- A stabilized terminal state. -/
def terminalState : LCPPageState :=
  { stabilized := true, buf := [sampleEntry], published := [sampleEntry],
    timerPending := false }

/-- C4 witness: the machine at concrete states and traces — a first signal is
appended with the timer set; a signal into the terminal state is dropped; a
two-signal trace followed by the quiet delay publishes both entries, ending
with the later one. -/
theorem c4_stabilization_machine_witness :
    lcpStep initialLCPPageState (.signal sampleEntry) =
      { initialLCPPageState with
          buf := initialLCPPageState.buf ++ [sampleEntry]
          timerPending := true } ∧
    lcpStep terminalState (.signal sampleEntryLater) = terminalState ∧
    lcpRun ([sampleEntry, sampleEntryLater].map LCPEvent.signal ++ [.stabilizeFire]) =
      { stabilized := true, buf := [sampleEntry, sampleEntryLater],
        published := [sampleEntry, sampleEntryLater], timerPending := false } ∧
    (lcpRun ([sampleEntry, sampleEntryLater].map LCPEvent.signal ++
        [.stabilizeFire])).published.getLast? = some sampleEntryLater := by
  refine ⟨c4_stabilization_machine.1 initialLCPPageState sampleEntry rfl,
    c4_stabilization_machine.2.1 terminalState sampleEntryLater rfl,
    (c4_stabilization_machine.2.2.2 [sampleEntry, sampleEntryLater] (by simp)).1,
    ?_⟩
  rw [(c4_stabilization_machine.2.2.2 [sampleEntry, sampleEntryLater] (by simp)).2]
  rfl

/-- If every poll reports "not yet stabilized", the poll loop runs out of
budget: the hard timeout elapses first. -/
theorem pollLoop_none (env : LCPEnv)
    (h : ∀ i, ∃ entries, env.poll i = .ok (false, entries)) :
    ∀ (budget i : Nat), pollLoop env budget i = none := by
  intro budget
  induction budget with
  | zero => intro i; rfl
  | succ k ih =>
      intro i
      obtain ⟨es, hes⟩ := h i
      simp [pollLoop, hes, ih]

/-- C2: `waitForLCPStabilization` never raises — (i) for every environment
behaviour (injection success or failure, arbitrary poll answers, any poll
budget, `getCurrentLCP` success or failure) it resolves with some entry list;
(ii) with zero paint signals, once the 3s fallback fires the page machine
reports stabilized with an empty list and the wait resolves with `[]` rather
than raising; (iii) if the page never stabilizes, the hard timeout elapses
first and the wait resolves with whatever entries `getCurrentLCP` currently
knows instead of failing. -/
theorem c2_waitForLCP_never_raises :
    (∀ env : LCPEnv, ∃ entries, waitForLCPStabilization env = .ok entries) ∧
    (∀ env : LCPEnv, env.inject = .ok () →
      (∀ i, env.poll i =
        .ok ((lcpRun [.fallbackFire]).stabilized, (lcpRun [.fallbackFire]).published)) →
      0 < env.pollBudget →
      waitForLCPStabilization env = .ok []) ∧
    (∀ env : LCPEnv,
      (∀ i, ∃ entries, env.poll i = .ok (false, entries)) →
      waitForLCPStabilization env = .ok (resolveWithCurrent env.current)) := by
  refine ⟨?_, ?_, ?_⟩
  · intro env
    unfold waitForLCPStabilization
    cases env.inject with
    | error e => exact ⟨resolveWithCurrent env.current, rfl⟩
    | ok u =>
        cases hloop : pollLoop env env.pollBudget 0 with
        | none => exact ⟨resolveWithCurrent env.current, by simp [hloop]⟩
        | some r =>
            cases r with
            | error e => exact ⟨resolveWithCurrent env.current, by simp [hloop]⟩
            | ok entries => exact ⟨entries, by simp [hloop]⟩
  · intro env hinj hpoll hbudget
    have h0 : env.poll 0 = .ok (true, []) := hpoll 0
    obtain ⟨k, hk⟩ : ∃ k, env.pollBudget = k + 1 :=
      ⟨env.pollBudget - 1, (Nat.succ_pred_eq_of_pos hbudget).symm⟩
    have hloop : pollLoop env env.pollBudget 0 = some (.ok []) := by
      rw [hk]
      simp [pollLoop, h0]
    unfold waitForLCPStabilization
    rw [hinj, hloop]
  · intro env hpoll
    unfold waitForLCPStabilization
    cases hinj : env.inject with
    | error e => rfl
    | ok u => rw [pollLoop_none env hpoll]

/-- An environment in which the page reports the post-fallback state (no
signal ever arrived) at every poll. -/
def zeroSignalEnv : LCPEnv :=
  { inject := .ok (), poll := fun _ => .ok (true, []), pollBudget := 5,
    current := .ok [] }

/-- An environment in which the page never stabilizes, while `getCurrentLCP`
knows one entry. -/
def timeoutEnv : LCPEnv :=
  { inject := .ok (), poll := fun _ => .ok (false, [sampleEntry]), pollBudget := 200,
    current := .ok [sampleEntry] }

/-- C2 witness: the zero-signal run resolves with the empty list; the
never-stabilizing run resolves with the currently known entries. -/
theorem c2_waitForLCP_never_raises_witness :
    waitForLCPStabilization zeroSignalEnv = .ok [] ∧
    waitForLCPStabilization timeoutEnv = .ok [sampleEntry] := by
  constructor
  · exact c2_waitForLCP_never_raises.2.1 zeroSignalEnv rfl (fun i => rfl) (by decide)
  · exact c2_waitForLCP_never_raises.2.2 timeoutEnv (fun i => ⟨[sampleEntry], rfl⟩)

/-! ## Rendering session manager (playwright-renderer.ts): context lifecycle

The renderer's only shared mutable state is the browser handle and the map of
open contexts (`contexts : Map<string, BrowserContext>`).  The map is
modelled as an insertion-ordered association list; a context is identified by
the `Nat` id it received on creation, and a closed context's id moves to
`closedIds` (a context is "live" iff it is still in the map). -/

/-- The renderer's context-map state. -/
structure RendererState where
  contexts : List (String × Nat)
  closedIds : List Nat
  nextId : Nat
  deriving DecidableEq, Repr

/-- `Map.prototype.get`: the value at a key, if present. -/
def ctxLookup : List (String × Nat) → String → Option Nat
  | [], _ => none
  | kv :: rest, key => if kv.1 = key then some kv.2 else ctxLookup rest key

/-- `Map.prototype.delete`: remove the entry at a key. -/
def ctxDelete (contexts : List (String × Nat)) (key : String) : List (String × Nat) :=
  contexts.filter (fun kv => kv.1 != key)

/-- `Map.prototype.set`: update an existing key in place, else append. -/
def ctxSet (contexts : List (String × Nat)) (key : String) (value : Nat) :
    List (String × Nat) :=
  if ctxLookup contexts key = none then contexts ++ [(key, value)]
  else contexts.map (fun kv => if kv.1 = key then (key, value) else kv)

/-- The context id built by `createContext` (line 59):
the url, a dash, and `width x height` of the viewport. -/
def contextKey (url : String) (viewport : ViewportConfig) : String :=
  url ++ "-" ++ toString viewport.width ++ "x" ++ toString viewport.height

/-- `createContext` from `playwright-renderer.ts`, restricted to its effect
on the context map: lines 62-65 close and delete any existing context under
the same key before the new context is created, and line 119 registers the
new context.  Returns the fresh context's id with the new state. -/
def createContext (st : RendererState) (key : String) : Nat × RendererState :=
  let cleaned :=
    match ctxLookup st.contexts key with
    | some oldId =>
        { st with
            contexts := ctxDelete st.contexts key
            closedIds := oldId :: st.closedIds }
    | none => st
  let newId := cleaned.nextId
  (newId,
    { cleaned with
        contexts := ctxSet cleaned.contexts key newId
        nextId := newId + 1 })

/-- `cleanup(contextId)` from `playwright-renderer.ts` (lines 287-293): when
the key is mapped, close that context and remove the entry. -/
def cleanup (st : RendererState) (key : String) : RendererState :=
  match ctxLookup st.contexts key with
  | some ctxId =>
      { st with
          contexts := ctxDelete st.contexts key
          closedIds := ctxId :: st.closedIds }
  | none => st

/-- How one extraction request ends: success, or a classified failure
(`TimeoutError`, `NetworkError` or `RenderingError` from `loadPage`). -/
inductive PipelineOutcome
  | success
  | failure (error : CritError)
  deriving DecidableEq, Repr

/-- Modelled from the spec: `extractor.ts`
(`CriticalCSSExtractor.extractCriticalCSS`) is not under `src/` — only its
callers and tests are.  Spec §4.5: the orchestrator "creates a session, loads
the page, … tears down the session (guaranteed, even on error)", and §5:
teardown "must occur on every exit path — success, classified error, or
timeout — via a guaranteed-release discipline (scoped acquisition with
cleanup on all exits)".  The load/analysis phase is supplied as its outcome
(`loadPage`'s classified failures from `playwright-renderer.ts` are the
`.failure` cases); the guaranteed release is the trailing `cleanup`, which
runs on both branches, and the classified error propagates unchanged. -/
def extractCriticalCSS (st : RendererState) (key : String)
    (outcome : PipelineOutcome) : PipelineOutcome × RendererState :=
  let created := createContext st key
  (outcome, cleanup created.2 key)

/-- Deleting a key removes every entry under it. -/
theorem ctxLookup_delete (contexts : List (String × Nat)) (key : String) :
    ctxLookup (ctxDelete contexts key) key = none := by
  induction contexts with
  | nil => rfl
  | cons kv rest ih =>
      by_cases h : kv.1 = key
      · simpa [ctxDelete, h] using ih
      · simpa [ctxDelete, ctxLookup, h] using ih

/-- Appending a fresh entry to a map without the key makes it found. -/
theorem ctxLookup_append_fresh (contexts : List (String × Nat)) (key : String)
    (value : Nat) (h : ctxLookup contexts key = none) :
    ctxLookup (contexts ++ [(key, value)]) key = some value := by
  induction contexts with
  | nil => simp [ctxLookup]
  | cons kv rest ih =>
      by_cases hk : kv.1 = key
      · simp [ctxLookup, hk] at h
      · simp only [ctxLookup, hk] at h ⊢
        simp [List.cons_append, ctxLookup, hk, ih h]

/-- A map without the key has no entry under it. -/
theorem ctxFilter_eq_nil (contexts : List (String × Nat)) (key : String)
    (h : ctxLookup contexts key = none) :
    contexts.filter (fun kv => kv.1 == key) = [] := by
  induction contexts with
  | nil => rfl
  | cons kv rest ih =>
      by_cases hk : kv.1 = key
      · simp [ctxLookup, hk] at h
      · simp only [ctxLookup, hk] at h
        simp [List.filter_cons, hk, ih h]

/-- Setting a fresh key appends its entry. -/
theorem ctxSet_fresh (contexts : List (String × Nat)) (key : String) (value : Nat)
    (h : ctxLookup contexts key = none) :
    ctxSet contexts key value = contexts ++ [(key, value)] := by
  simp [ctxSet, h]

/-- The state after `createContext` maps the key to the fresh context. -/
theorem createContext_lookup (st : RendererState) (key : String) :
    ctxLookup (createContext st key).2.contexts key = some (createContext st key).1 := by
  cases h : ctxLookup st.contexts key with
  | none =>
      simp only [createContext, h, ctxSet]
      exact ctxLookup_append_fresh _ _ _ h
  | some oldId =>
      simp only [createContext, h, ctxSet, ctxLookup_delete]
      exact ctxLookup_append_fresh _ _ _ (ctxLookup_delete st.contexts key)

/-- C3: on every exit path of a request — success or a classified failure,
timeout included — the browsing context created for the request is torn down:
the pipeline's result is the load outcome unchanged (errors are not
swallowed), the request's key is no longer mapped afterwards, and the very
context that was created has been closed, so no session outlives its
request. -/
theorem c3_context_teardown :
    ∀ (st : RendererState) (key : String) (outcome : PipelineOutcome),
      (extractCriticalCSS st key outcome).1 = outcome ∧
      ctxLookup (extractCriticalCSS st key outcome).2.contexts key = none ∧
      (createContext st key).1 ∈ (extractCriticalCSS st key outcome).2.closedIds := by
  intro st key outcome
  have hlook := createContext_lookup st key
  refine ⟨rfl, ?_, ?_⟩
  · simp only [extractCriticalCSS, cleanup, hlook]
    exact ctxLookup_delete _ _
  · simp only [extractCriticalCSS, cleanup, hlook]
    exact List.mem_cons_self _ _

/-- C10: the renderer keeps at most one open context per
`(url, width x height)` key — after `createContext` the map holds exactly one
entry under the key (the fresh context); any context previously registered
under that key was closed and removed before the new one was registered; and
entries under every other key are untouched. -/
theorem c10_one_context_per_key :
    ∀ (st : RendererState) (key : String),
      (createContext st key).2.contexts.filter (fun kv => kv.1 == key) =
        [(key, (createContext st key).1)] ∧
      (∀ oldId, ctxLookup st.contexts key = some oldId →
        oldId ∈ (createContext st key).2.closedIds) ∧
      (∀ otherKey, otherKey ≠ key →
        (createContext st key).2.contexts.filter (fun kv => kv.1 == otherKey) =
          st.contexts.filter (fun kv => kv.1 == otherKey)) := by
  intro st key
  refine ⟨?_, ?_, ?_⟩
  · cases h : ctxLookup st.contexts key with
    | none =>
        simp only [createContext, h]
        rw [ctxSet_fresh st.contexts key st.nextId h, List.filter_append,
          ctxFilter_eq_nil st.contexts key h]
        simp
    | some oldId =>
        have hdel : ctxLookup (ctxDelete st.contexts key) key = none :=
          ctxLookup_delete st.contexts key
        simp only [createContext, h]
        rw [ctxSet_fresh _ key st.nextId hdel, List.filter_append,
          ctxFilter_eq_nil _ key hdel]
        simp
  · intro oldId h
    simp [createContext, h, ctxSet]
  · intro otherKey hne
    have hfilter : ∀ contexts : List (String × Nat),
        (ctxDelete contexts key).filter (fun kv => kv.1 == otherKey) =
          contexts.filter (fun kv => kv.1 == otherKey) := by
      intro contexts
      unfold ctxDelete
      rw [List.filter_filter]
      apply List.filter_congr
      intro kv _
      by_cases ho : kv.1 = otherKey
      · have hk : kv.1 ≠ key := by rw [ho]; exact hne
        simp [ho, hk, hne]
      · simp [ho]
    cases h : ctxLookup st.contexts key with
    | none =>
        simp only [createContext, h]
        rw [ctxSet_fresh st.contexts key st.nextId h, List.filter_append]
        simp [Ne.symm hne]
    | some oldId =>
        have hdel : ctxLookup (ctxDelete st.contexts key) key = none :=
          ctxLookup_delete st.contexts key
        simp only [createContext, h]
        rw [ctxSet_fresh _ key st.nextId hdel, List.filter_append, hfilter st.contexts]
        simp [Ne.symm hne]

/-- A renderer state with one live context for the mobile key of
`https://example.com`. -/
def busyRendererState : RendererState :=
  { contexts := [(contextKey "https://example.com" mobileViewport, 7)],
    closedIds := [], nextId := 8 }

/-- C10 witness: re-creating the context for an already-mapped key closes the
old context (id 7) and leaves exactly the fresh context (id 8) under the
key. -/
theorem c10_one_context_per_key_witness :
    7 ∈ (createContext busyRendererState
        (contextKey "https://example.com" mobileViewport)).2.closedIds ∧
    (createContext busyRendererState
        (contextKey "https://example.com" mobileViewport)).2.contexts.filter
      (fun kv => kv.1 == contextKey "https://example.com" mobileViewport) =
      [(contextKey "https://example.com" mobileViewport, 8)] := by
  constructor
  · exact (c10_one_context_per_key busyRendererState
      (contextKey "https://example.com" mobileViewport)).2.1 7 (by rfl)
  · exact (c10_one_context_per_key busyRendererState
      (contextKey "https://example.com" mobileViewport)).1

end CritCSS
